import Mathlib

/-!
Verification of the Vision2Lang orchestration layer.

This file shallowly embeds the Python modules `src/utils.py`, `src/inference.py`
and `src/app.py` of the Vision2Lang repository.  External capabilities (the
torch device probes, the PIL file decoder, the BLIP processors and models, the
gTTS backend, the OpenCV camera) are modelled as explicit environment records,
and the module-level mutable globals of `inference.py` are modelled as an
explicit state record threaded through the functions.  Python exceptions
(`Exception`-derived values) are modelled with `Except PyError`; a Python
function that catches all exceptions internally is modelled with a total
return type.
-/

namespace Vision2Lang

/-- Python exception values as they can flow through this code base:
`ValueError` raised by `prepare_image`, `IndexError` from sequence indexing,
and any other `Exception`-derived error coming out of a library call. -/
inductive PyError where
  | valueError (s : String)
  | indexError (s : String)
  | otherError (s : String)
deriving Repr, DecidableEq

/-- Rendering of `str(e)` for a caught exception `e` (the message text). -/
def PyError.msg : PyError → String
  | .valueError s => s
  | .indexError s => s
  | .otherError s => s

/-- Whether an embedded library call returned normally (did not raise). -/
def exOk {α : Type} : Except PyError α → Bool
  | .ok _ => true
  | .error _ => false

/-- Characters treated as whitespace by Python's `str.strip()` (ASCII range,
which is what the call sites in this code base can produce). -/
def isPyWhitespace (c : Char) : Bool :=
  c = ' ' || c = '\t' || c = '\n' || c = '\r' || c = '\x0b' || c = '\x0c'

/-- Python `s.strip()`: remove leading and trailing whitespace. -/
def pyStrip (s : String) : String :=
  String.mk (((s.toList.dropWhile isPyWhitespace).reverse.dropWhile isPyWhitespace).reverse)

/-- The guard `not s or s.strip() == ""` used by `answer_question`,
`text_to_speech` and `answer_with_audio`: true iff `s` is empty or
whitespace-only. -/
def pyBlank (s : String) : Bool :=
  s.isEmpty || pyStrip s == ""

/-- A decoded pixel buffer (`numpy.ndarray` holding an image): width and
height in pixels. -/
structure NdArray where
  width : Nat
  height : Nat
deriving Repr, DecidableEq

/-- A PIL image: pixel dimensions plus the PIL mode string (`"RGB"`, `"L"`,
`"RGBA"`, ...). -/
structure PILImage where
  width : Nat
  height : Nat
  mode : String
deriving Repr, DecidableEq

/-- Number of color channels of a PIL mode string (standard PIL modes). -/
def channelsOfMode (mode : String) : Nat :=
  if mode = "RGB" then 3
  else if mode = "RGBA" then 4
  else if mode = "CMYK" then 4
  else if mode = "LA" then 2
  else 1

def PILImage.channels (img : PILImage) : Nat := channelsOfMode img.mode

/-- PIL `img.convert('RGB')`: keeps the pixel dimensions, forces mode RGB. -/
def convertRGB (img : PILImage) : PILImage :=
  { img with mode := "RGB" }

/- ## Speech synthesizer: `text_to_speech` of `src/utils.py` -/

/-- Environment for `text_to_speech`: the name handed out by
`tempfile.NamedTemporaryFile(delete=False, suffix='.mp3')` and the behavior of
`gTTS(text=..., lang=..., slow=...).save(path)`, which either writes the file
or raises. -/
structure TtsEnv where
  tempName : String
  gttsSave : String → String → Bool → String → Except PyError Unit

/-- Embedding of `text_to_speech(text, lang='en', slow=False)`.  Returns the
result (`Option String`: the audio path or `None`) paired with the number of
times the gTTS backend was invoked.  The whole Python body sits inside
`try ... except Exception: return None`, so the embedding is total: no
exception escapes. -/
def text_to_speech (env : TtsEnv) (text lang : String) (slow : Bool) :
    Option String × Nat :=
  if pyBlank text then
    (none, 0)
  else
    let audio_path := env.tempName
    match env.gttsSave text lang slow audio_path with
    | .ok _ => (some audio_path, 1)
    | .error _ => (none, 1)

/- ## Capture source: `capture_webcam_frame` of `src/utils.py` -/

/-- Environment for `capture_webcam_frame`: the behavior of
`cv2.VideoCapture(0)` (construction may raise), `cap.isOpened()`,
`cap.read()` (may raise; otherwise returns the `ret` flag and a frame), and
`cv2.cvtColor(frame, cv2.COLOR_BGR2RGB)` (may raise on a malformed frame). -/
structure CamEnv where
  ctorResult : Except PyError Unit
  opened : Bool
  readResult : Except PyError (Bool × NdArray)
  cvtColor : NdArray → Except PyError NdArray

/-- Embedding of `capture_webcam_frame()`.  Returns the captured RGB frame (or
`none`) paired with a flag recording whether `cap.release()` was executed.
The Python body sits inside `try ... except Exception: return None`, so the
embedding is total.  `cap.release()` appears in the source only between
`cap.read()` and the `ret` check, so the flag is set exactly on the paths
that reach that line. -/
def capture_webcam_frame (env : CamEnv) : Option NdArray × Bool :=
  match env.ctorResult with
  | .error _ => (none, false)
  | .ok _ =>
    if !env.opened then
      (none, false)
    else
      match env.readResult with
      | .error _ => (none, false)
      | .ok (ret, frame) =>
        if ret then
          match env.cvtColor frame with
          | .ok frame_rgb => (some frame_rgb, true)
          | .error _ => (none, true)
        else
          (none, true)

/- ## Inference module: `src/inference.py` -/

/-- A torch compute device, as returned by `get_device`. -/
inductive Device where
  | cuda
  | mps
  | cpu
deriving Repr, DecidableEq

/-- Generated token: its text piece and whether it is a special
(control/formatting) token. -/
structure Token where
  text : String
  special : Bool
deriving Repr, DecidableEq

/-- The batch-encoding produced by `processor(images=..., text=..., return_tensors="pt")`:
the preprocessed image and, for the VQA processor, the question text. -/
structure Inputs where
  image : PILImage
  text : Option String
deriving Repr, DecidableEq

/-- Environment of external capabilities used by `inference.py`:
the two torch availability probes, `PIL.Image.open` (a local file read that
may raise), the PIL mode that `Image.fromarray` assigns to a given buffer,
and the two BLIP models' `generate` routines, each mapping a batch encoding
and the `max_length` bound to a batch of generated token sequences. -/
structure InfEnv where
  cudaAvailable : Bool
  mpsAvailable : Bool
  openFile : String → Except PyError PILImage
  fromarrayMode : NdArray → String
  captionGenerate : Inputs → Nat → List (List Token)
  vqaGenerate : Inputs → Nat → List (List Token)

/-- Embedding of `get_device()`: CUDA if available, else MPS (Apple silicon),
else CPU. -/
def get_device (env : InfEnv) : Device :=
  if env.cudaAvailable then Device.cuda
  else if env.mpsAvailable then Device.mps
  else Device.cpu

/-- The module-level globals of `inference.py` (`caption_model`,
`caption_processor`, `vqa_model`, `vqa_processor`, `device`), plus an
observation log: how many times `get_device()` ran, how many times each
loading branch body ran (the "Loading ... model" log line), the `max_length`
argument of each `model.generate` invocation per model, and a counter
supplying fresh identities for newly constructed handles. -/
structure ModelsState where
  caption_model : Option Nat
  caption_processor : Option Nat
  vqa_model : Option Nat
  vqa_processor : Option Nat
  device : Option Device
  getDeviceCalls : Nat
  captionLoadEvents : Nat
  vqaLoadEvents : Nat
  captionGenLog : List Nat
  vqaGenLog : List Nat
  nextHandleId : Nat
deriving Repr, DecidableEq

/-- The state at interpreter start: all five globals are `None`. -/
def initState : ModelsState :=
  { caption_model := none
    caption_processor := none
    vqa_model := none
    vqa_processor := none
    device := none
    getDeviceCalls := 0
    captionLoadEvents := 0
    vqaLoadEvents := 0
    captionGenLog := []
    vqaGenLog := []
    nextHandleId := 0 }

/-- Embedding of `load_caption_model()`: if the captioning model global is
`None`, resolve the device, construct the processor and the model (fresh
handle identities), and store them; in either case return the triple
`(caption_model, caption_processor, device)` of current globals. -/
def load_caption_model (env : InfEnv) (st : ModelsState) :
    (Option Nat × Option Nat × Option Device) × ModelsState :=
  match st.caption_model with
  | some m => ((some m, st.caption_processor, st.device), st)
  | none =>
    let d := get_device env
    let procId := st.nextHandleId
    let modelId := st.nextHandleId + 1
    let st' := { st with
      caption_model := some modelId
      caption_processor := some procId
      device := some d
      getDeviceCalls := st.getDeviceCalls + 1
      captionLoadEvents := st.captionLoadEvents + 1
      nextHandleId := st.nextHandleId + 2 }
    ((some modelId, some procId, some d), st')

/-- Embedding of `load_vqa_model()`: same shape as `load_caption_model` but
for the VQA globals; note the body re-runs `get_device()` and overwrites the
shared `device` global when the VQA model is not yet loaded. -/
def load_vqa_model (env : InfEnv) (st : ModelsState) :
    (Option Nat × Option Nat × Option Device) × ModelsState :=
  match st.vqa_model with
  | some m => ((some m, st.vqa_processor, st.device), st)
  | none =>
    let d := get_device env
    let procId := st.nextHandleId
    let modelId := st.nextHandleId + 1
    let st' := { st with
      vqa_model := some modelId
      vqa_processor := some procId
      device := some d
      getDeviceCalls := st.getDeviceCalls + 1
      vqaLoadEvents := st.vqaLoadEvents + 1
      nextHandleId := st.nextHandleId + 2 }
    ((some modelId, some procId, some d), st')

/-- The runtime shape of the `image` argument of `prepare_image`: a file path
string, a numpy array, a PIL image, or a value of any other Python type (the
string carried by `other` is the rendering of `type(image)`). -/
inductive ImageInput where
  | path (p : String)
  | ndarray (a : NdArray)
  | pilImage (i : PILImage)
  | other (tyName : String)
deriving Repr, DecidableEq

/-- Embedding of `prepare_image(image)`: dispatch on the runtime type of the
input; a path is opened and converted to RGB, an array passes through
`Image.fromarray` then RGB conversion, a PIL image is converted to RGB, and
anything else raises `ValueError(f"Unsupported image type: {type(image)}")`. -/
def prepare_image (env : InfEnv) : ImageInput → Except PyError PILImage
  | .path p =>
    (env.openFile p).map convertRGB
  | .ndarray a =>
    .ok (convertRGB { width := a.width, height := a.height, mode := env.fromarrayMode a })
  | .pilImage i =>
    .ok (convertRGB i)
  | .other tyName =>
    .error (.valueError ("Unsupported image type: " ++ tyName))

/-- Pixel dimensions of the source of an `ImageInput`: for a path, those of
the decoded file image; for an array or a PIL image, its own. -/
def sourceDims (env : InfEnv) : ImageInput → Option (Nat × Nat)
  | .path p => (env.openFile p).toOption.map fun i => (i.width, i.height)
  | .ndarray a => some (a.width, a.height)
  | .pilImage i => some (i.width, i.height)
  | .other _ => none

/-- Embedding of `processor.decode(seq, skip_special_tokens=...)`: the
concatenation of the token texts, with special tokens dropped when
`skipSpecial` is set. -/
def decodeTokens (skipSpecial : Bool) (seq : List Token) : String :=
  String.join ((if skipSpecial then seq.filter (fun t => !t.special) else seq).map Token.text)

/-- The default of the `max_length` parameter of `caption_image` and
`answer_question`. -/
def DEFAULT_MAX_LENGTH : Nat := 50

/-- Embedding of `caption_image(image, max_length=50)`: ensure the captioning
model is loaded, normalize the image (propagating its exceptions), encode it,
call `model.generate(**inputs, max_length=max_length)` (logged), and decode
`outputs[0]` with special tokens skipped (`outputs[0]` raises `IndexError`
when the batch is empty). -/
def caption_image (env : InfEnv) (st : ModelsState) (image : ImageInput)
    (max_length : Nat) : Except PyError String × ModelsState :=
  let st1 := (load_caption_model env st).2
  match prepare_image env image with
  | .error e => (.error e, st1)
  | .ok pil_image =>
    let inputs : Inputs := { image := pil_image, text := none }
    let outputs := env.captionGenerate inputs max_length
    let st2 := { st1 with captionGenLog := st1.captionGenLog ++ [max_length] }
    match outputs.head? with
    | none => (.error (.indexError "index 0 is out of bounds"), st2)
    | some seq => (.ok (decodeTokens true seq), st2)

/-- Embedding of `answer_question(image, question, max_length=50)`: a blank
question short-circuits to the guidance sentinel before anything else runs;
otherwise the VQA model is loaded, the image normalized, image and question
jointly encoded, `model.generate` called (logged) and `outputs[0]` decoded. -/
def answer_question (env : InfEnv) (st : ModelsState) (image : ImageInput)
    (question : String) (max_length : Nat) : Except PyError String × ModelsState :=
  if pyBlank question then
    (.ok "Please ask a question about the image.", st)
  else
    let st1 := (load_vqa_model env st).2
    match prepare_image env image with
    | .error e => (.error e, st1)
    | .ok pil_image =>
      let inputs : Inputs := { image := pil_image, text := some question }
      let outputs := env.vqaGenerate inputs max_length
      let st2 := { st1 with vqaGenLog := st1.vqaGenLog ++ [max_length] }
      match outputs.head? with
      | none => (.error (.indexError "index 0 is out of bounds"), st2)
      | some seq => (.ok (decodeTokens true seq), st2)

/- ## Orchestration shell: `src/app.py` -/

/-- Combined environment of the application: inference capabilities, the
speech backend, and the camera. -/
structure AppEnv where
  inf : InfEnv
  tts : TtsEnv
  cam : CamEnv

/-- Embedding of `generate_caption_with_audio(image, enable_tts=True)`: a
missing image yields a guidance message; otherwise the pipeline runs inside
`try ... except Exception`, which turns any raised exception `e` into the
displayed text `"❌ Error: " + str(e)`.  The speech step uses the defaults
`lang='en'`, `slow=False` and its `None` result is passed through. -/
def generate_caption_with_audio (env : AppEnv) (st : ModelsState)
    (image : Option ImageInput) (enable_tts : Bool) :
    (String × Option String) × ModelsState :=
  match image with
  | none => (("Please upload an image first.", none), st)
  | some img =>
    match caption_image env.inf st img DEFAULT_MAX_LENGTH with
    | (.ok caption, st') =>
      let audio_path := if enable_tts then (text_to_speech env.tts caption "en" false).1 else none
      ((caption, audio_path), st')
    | (.error e, st') =>
      (("❌ Error: " ++ e.msg, none), st')

/-- Embedding of `answer_with_audio(image, question, enable_tts=True)`:
guidance messages for a missing image or a blank question, then the same
catch-all shape as `generate_caption_with_audio` around `answer_question`. -/
def answer_with_audio (env : AppEnv) (st : ModelsState)
    (image : Option ImageInput) (question : String) (enable_tts : Bool) :
    (String × Option String) × ModelsState :=
  match image with
  | none => (("Please upload an image first.", none), st)
  | some img =>
    if pyBlank question then
      (("Please enter a question.", none), st)
    else
      match answer_question env.inf st img question DEFAULT_MAX_LENGTH with
      | (.ok answer, st') =>
        let audio_path := if enable_tts then (text_to_speech env.tts answer "en" false).1 else none
        ((answer, audio_path), st')
      | (.error e, st') =>
        (("❌ Error: " ++ e.msg, none), st')

/-- Embedding of `capture_and_caption(enable_tts=True)`: capture a frame
(`capture_webcam_frame` never raises); a `None` frame yields the
capture-failed message; otherwise the frame (a numpy array) is captioned and
spoken, with any exception converted to the displayed error text. -/
def capture_and_caption (env : AppEnv) (st : ModelsState) (enable_tts : Bool) :
    (Option NdArray × String × Option String) × ModelsState :=
  match (capture_webcam_frame env.cam).1 with
  | none =>
    ((none, "Failed to capture webcam frame. Make sure your webcam is connected.", none), st)
  | some frame =>
    match caption_image env.inf st (.ndarray frame) DEFAULT_MAX_LENGTH with
    | (.ok caption, st') =>
      let audio_path := if enable_tts then (text_to_speech env.tts caption "en" false).1 else none
      ((some frame, caption, audio_path), st')
    | (.error e, st') =>
      ((none, "❌ Error: " ++ e.msg, none), st')

/- ## Execution traces over the process lifetime -/

/-- One model-loading event in a process history. -/
inductive LoadOp where
  | loadCaption
  | loadVqa
deriving Repr, DecidableEq

/-- Run a sequence of loading calls against the module globals, as the two
engines do over the lifetime of one process. -/
def runLoads (env : InfEnv) (st : ModelsState) : List LoadOp → ModelsState
  | [] => st
  | LoadOp.loadCaption :: rest => runLoads env (load_caption_model env st).2 rest
  | LoadOp.loadVqa :: rest => runLoads env (load_vqa_model env st).2 rest

/-- Run a sequence of `caption_image` calls (each an image plus a
`max_length`) against the module globals. -/
def runCaptions (env : InfEnv) (st : ModelsState) : List (ImageInput × Nat) → ModelsState
  | [] => st
  | (img, n) :: rest => runCaptions env (caption_image env st img n).2 rest

/- ## Concrete sample environments for witnesses and counterexamples -/

/-- A concrete inference environment: a CPU-only machine whose file decoder
knows one 640x480 grayscale JPEG, and whose models deterministically emit one
short sequence containing a trailing special token. -/
def sampleInfEnv : InfEnv :=
  { cudaAvailable := false
    mpsAvailable := false
    openFile := fun p =>
      if p = "data/cat.jpg" then .ok { width := 640, height := 480, mode := "L" }
      else .error (.otherError ("No such file or directory: " ++ p))
    fromarrayMode := fun _ => "RGB"
    captionGenerate := fun _ _ =>
      [[{ text := "a cat", special := false }, { text := "[SEP]", special := true }]]
    vqaGenerate := fun _ _ =>
      [[{ text := "yes", special := false }, { text := "[SEP]", special := true }]] }

/-- A concrete speech environment whose backend succeeds. -/
def sampleTtsEnv : TtsEnv :=
  { tempName := "/tmp/tts_sample.mp3"
    gttsSave := fun _ _ _ _ => .ok () }

/-- A concrete speech environment whose backend raises. -/
def failingTtsEnv : TtsEnv :=
  { tempName := "/tmp/tts_fail.mp3"
    gttsSave := fun _ _ _ _ => .error (.otherError "Failed to connect") }

/-- A camera whose device constructs but reports not opened. -/
def camNotOpenedEnv : CamEnv :=
  { ctorResult := .ok ()
    opened := false
    readResult := .ok (true, { width := 640, height := 480 })
    cvtColor := fun a => .ok a }

/-- A camera where everything succeeds. -/
def camOkEnv : CamEnv :=
  { ctorResult := .ok ()
    opened := true
    readResult := .ok (true, { width := 640, height := 480 })
    cvtColor := fun a => .ok a }

/-- A camera whose `read` call raises. -/
def camReadRaisesEnv : CamEnv :=
  { ctorResult := .ok ()
    opened := true
    readResult := .error (.otherError "read failed")
    cvtColor := fun a => .ok a }

/-- A complete application environment built from the samples above, with the
not-opened camera. -/
def sampleAppEnv : AppEnv :=
  { inf := sampleInfEnv
    tts := sampleTtsEnv
    cam := camNotOpenedEnv }

/-- A tiny PIL image used in demo call sequences. -/
def demoCall1 : ImageInput × Nat :=
  (ImageInput.pilImage { width := 2, height := 2, mode := "L" }, 50)

/-- A tiny numpy buffer used in demo call sequences. -/
def demoCall2 : ImageInput × Nat :=
  (ImageInput.ndarray { width := 3, height := 3 }, 50)

/-- The module state right after the captioning model's first load. -/
def loadedCaptionState : ModelsState :=
  (load_caption_model sampleInfEnv initState).2

/-- A state in which the captioning model global already holds a handle. -/
def presetState : ModelsState :=
  { initState with
      caption_model := some 7
      caption_processor := some 6
      device := some Device.cpu
      nextHandleId := 8 }

/- ## Helper lemmas -/

theorem load_caption_model_of_some (env : InfEnv) (st : ModelsState) (m : Nat)
    (h : st.caption_model = some m) :
    load_caption_model env st = ((some m, st.caption_processor, st.device), st) := by
  simp [load_caption_model, h]

theorem load_caption_model_state_of_none (env : InfEnv) (st : ModelsState)
    (h : st.caption_model = none) :
    (load_caption_model env st).2 = { st with
      caption_model := some (st.nextHandleId + 1)
      caption_processor := some st.nextHandleId
      device := some (get_device env)
      getDeviceCalls := st.getDeviceCalls + 1
      captionLoadEvents := st.captionLoadEvents + 1
      nextHandleId := st.nextHandleId + 2 } := by
  simp [load_caption_model, h]

theorem load_vqa_model_of_some (env : InfEnv) (st : ModelsState) (m : Nat)
    (h : st.vqa_model = some m) :
    load_vqa_model env st = ((some m, st.vqa_processor, st.device), st) := by
  simp [load_vqa_model, h]

theorem load_vqa_model_state_of_none (env : InfEnv) (st : ModelsState)
    (h : st.vqa_model = none) :
    (load_vqa_model env st).2 = { st with
      vqa_model := some (st.nextHandleId + 1)
      vqa_processor := some st.nextHandleId
      device := some (get_device env)
      getDeviceCalls := st.getDeviceCalls + 1
      vqaLoadEvents := st.vqaLoadEvents + 1
      nextHandleId := st.nextHandleId + 2 } := by
  simp [load_vqa_model, h]

/-- The state side of `caption_image` is determined by the loading step, the
normalization outcome, and the generate-log append. -/
theorem caption_image_snd (env : InfEnv) (st : ModelsState) (img : ImageInput) (n : Nat) :
    (caption_image env st img n).2 =
      (match prepare_image env img with
       | .error _ => (load_caption_model env st).2
       | .ok _ => { (load_caption_model env st).2 with
           captionGenLog := (load_caption_model env st).2.captionGenLog ++ [n] }) := by
  unfold caption_image
  rcases hp : prepare_image env img with e | pil
  · rfl
  · rcases ho : (env.captionGenerate { image := pil, text := none } n).head? with _ | seq <;>
      simp [ho]

/- ## Claim theorems -/

/-- C5: `text_to_speech` returns `none` exactly when the text is blank (and
then the gTTS backend is never invoked) or when the backend raises (the error
is caught, never propagated); otherwise it returns the written audio path.
Totality of the embedding reflects that no exception escapes the function. -/
theorem text_to_speech_spec (env : TtsEnv) (text lang : String) (slow : Bool) :
    (pyBlank text = true →
       text_to_speech env text lang slow = (none, 0)) ∧
    (pyBlank text = false →
       (text_to_speech env text lang slow).2 = 1 ∧
       ((text_to_speech env text lang slow).1 = none ↔
          ∃ e, env.gttsSave text lang slow env.tempName = .error e) ∧
       (∀ u, env.gttsSave text lang slow env.tempName = .ok u →
          (text_to_speech env text lang slow).1 = some env.tempName)) := by
  refine ⟨fun hb => ?_, fun hb => ?_⟩
  · simp [text_to_speech, hb]
  · rcases hs : env.gttsSave text lang slow env.tempName with u | e <;>
      simp [text_to_speech, hb, hs]

/-- Witness for C5: blank input is a silent no-op, a succeeding backend
yields the temp path, a raising backend yields `none`. -/
theorem text_to_speech_spec_witness :
    text_to_speech sampleTtsEnv "   " "en" false = (none, 0) ∧
    (text_to_speech sampleTtsEnv "hello" "en" false).1 = some "/tmp/tts_sample.mp3" ∧
    (text_to_speech failingTtsEnv "hello" "en" false).1 = none := by
  refine ⟨(text_to_speech_spec sampleTtsEnv "   " "en" false).1 (by decide), ?_, ?_⟩
  · exact ((text_to_speech_spec sampleTtsEnv "hello" "en" false).2 (by decide)).2.2 () rfl
  · exact ((text_to_speech_spec failingTtsEnv "hello" "en" false).2 (by decide)).2.1.mpr
      ⟨.otherError "Failed to connect", rfl⟩

/-- C6: `prepare_image` accepts exactly the three supported input shapes; a
path input can only fail with the file-open failure itself, buffer and PIL
inputs always succeed, and any other runtime type raises the `ValueError`
whose message names the offending type. -/
theorem prepare_image_input_kinds (env : InfEnv) :
    (∀ ty, prepare_image env (.other ty) =
       .error (.valueError ("Unsupported image type: " ++ ty))) ∧
    (∀ p, prepare_image env (.path p) = (env.openFile p).map convertRGB) ∧
    (∀ a, ∃ img, prepare_image env (.ndarray a) = .ok img) ∧
    (∀ i, ∃ img, prepare_image env (.pilImage i) = .ok img) := by
  refine ⟨fun ty => rfl, fun p => rfl, fun a => ⟨_, rfl⟩, fun i => ⟨_, rfl⟩⟩

/-- C7: whenever `prepare_image` succeeds, the produced image is in mode RGB
(three channels) and keeps the pixel dimensions of its source. -/
theorem prepare_image_canonical (env : InfEnv) (input : ImageInput) (img : PILImage) :
    prepare_image env input = .ok img →
      img.mode = "RGB" ∧ img.channels = 3 ∧
      some (img.width, img.height) = sourceDims env input := by
  intro h
  rcases input with p | a | i | ty
  · rcases ho : env.openFile p with e | src
    · simp [prepare_image, ho, Except.map] at h
    · simp [prepare_image, ho, Except.map] at h
      subst h
      simp [convertRGB, PILImage.channels, channelsOfMode, sourceDims, ho, Except.toOption]
  · simp [prepare_image] at h
    subst h
    simp [convertRGB, PILImage.channels, channelsOfMode, sourceDims]
  · simp [prepare_image] at h
    subst h
    simp [convertRGB, PILImage.channels, channelsOfMode, sourceDims]
  · simp [prepare_image] at h

/-- Witness for C7: the three sample inputs (a decodable path, a buffer, a
PIL image) normalize to RGB images with their sources' dimensions. -/
theorem prepare_image_canonical_witness :
    some ((640 : Nat), (480 : Nat)) = sourceDims sampleInfEnv (ImageInput.path "data/cat.jpg") ∧
    some ((3 : Nat), (3 : Nat)) = sourceDims sampleInfEnv (ImageInput.ndarray { width := 3, height := 3 }) ∧
    some ((2 : Nat), (2 : Nat)) = sourceDims sampleInfEnv (ImageInput.pilImage { width := 2, height := 2, mode := "L" }) := by
  refine ⟨?_, ?_, ?_⟩
  · exact (prepare_image_canonical sampleInfEnv (ImageInput.path "data/cat.jpg")
      { width := 640, height := 480, mode := "RGB" } rfl).2.2
  · exact (prepare_image_canonical sampleInfEnv (ImageInput.ndarray { width := 3, height := 3 })
      { width := 3, height := 3, mode := "RGB" } rfl).2.2
  · exact (prepare_image_canonical sampleInfEnv (ImageInput.pilImage { width := 2, height := 2, mode := "L" })
      { width := 2, height := 2, mode := "RGB" } rfl).2.2

/-- C10: the blank-question guard of `answer_question` runs before any image
handling: a blank question yields the sentinel with the state untouched even
when the image argument is one whose normalization would raise. -/
theorem answer_question_blank_precedes_image (env : InfEnv) (st : ModelsState)
    (image : ImageInput) (q : String) (n : Nat) (e : PyError) :
    pyBlank q = true →
    prepare_image env image = .error e →
    answer_question env st image q n = (.ok "Please ask a question about the image.", st) := by
  intro hb _
  simp [answer_question, hb]

/-- Witness for C10: a whitespace question together with an unsupported image
type (whose normalization raises `ValueError`) still yields the sentinel and
leaves the model state untouched. -/
theorem answer_question_blank_precedes_image_witness :
    answer_question sampleInfEnv initState (ImageInput.other "<class 'int'>") "   " 50 =
      (.ok "Please ask a question about the image.", initState) := by
  exact answer_question_blank_precedes_image sampleInfEnv initState
    (ImageInput.other "<class 'int'>") "   " 50
    (.valueError "Unsupported image type: <class 'int'>") (by decide) rfl

/-- C1 counterexample: two exit paths on which the device handle is not
released — the open-failure path (device constructs but `isOpened()` is
false) and the path where `cap.read()` raises.  The claim that the handle is
released on every exit path is therefore false of the code. -/
theorem capture_webcam_frame_release_cex :
    capture_webcam_frame camNotOpenedEnv = (none, false) ∧
    capture_webcam_frame camReadRaisesEnv = (none, false) :=
  ⟨rfl, rfl⟩

/-- C1 amended: the handle is released exactly on the paths where
`cap.read()` returns (whether or not the read succeeded); on open failure or
when construction or read raises, the handle is not explicitly released.
Every failure — open failure, read failure, any exception — still yields
`none`, and no exception propagates (the embedding is total). -/
theorem capture_webcam_frame_release_and_none (env : CamEnv) :
    ((capture_webcam_frame env).2 = (exOk env.ctorResult && env.opened && exOk env.readResult)) ∧
    (∀ e, env.ctorResult = .error e → capture_webcam_frame env = (none, false)) ∧
    (env.opened = false → (capture_webcam_frame env).1 = none) ∧
    (∀ e, env.readResult = .error e → (capture_webcam_frame env).1 = none) ∧
    (∀ f, env.readResult = .ok (false, f) → (capture_webcam_frame env).1 = none) ∧
    (∀ f e, env.readResult = .ok (true, f) → env.cvtColor f = .error e →
       (capture_webcam_frame env).1 = none) := by
  refine ⟨?_, ?_, ?_, ?_, ?_, ?_⟩
  · rcases hc : env.ctorResult with e | u
    · simp [capture_webcam_frame, hc, exOk]
    · cases hop : env.opened
      · simp [capture_webcam_frame, hc, hop, exOk]
      · rcases hr : env.readResult with e | ⟨ret, f⟩
        · simp [capture_webcam_frame, hc, hop, hr, exOk]
        · cases ret
          · simp [capture_webcam_frame, hc, hop, hr, exOk]
          · rcases hcv : env.cvtColor f with e | rgb <;>
              simp [capture_webcam_frame, hc, hop, hr, hcv, exOk]
  · intro e hc
    simp [capture_webcam_frame, hc]
  · intro hop
    rcases hc : env.ctorResult with e | u <;>
      simp [capture_webcam_frame, hc, hop]
  · intro e hr
    rcases hc : env.ctorResult with e' | u
    · simp [capture_webcam_frame, hc]
    · cases hop : env.opened <;> simp [capture_webcam_frame, hc, hop, hr]
  · intro f hr
    rcases hc : env.ctorResult with e' | u
    · simp [capture_webcam_frame, hc]
    · cases hop : env.opened <;> simp [capture_webcam_frame, hc, hop, hr]
  · intro f e hr hcv
    rcases hc : env.ctorResult with e' | u
    · simp [capture_webcam_frame, hc]
    · cases hop : env.opened <;> simp [capture_webcam_frame, hc, hop, hr, hcv]

/-- Witness for the amended C1: the all-success camera does release, and the
not-opened camera yields `none`. -/
theorem capture_webcam_frame_release_and_none_witness :
    (capture_webcam_frame camOkEnv).2 = true ∧
    (capture_webcam_frame camNotOpenedEnv).1 = none := by
  constructor
  · have h := (capture_webcam_frame_release_and_none camOkEnv).1
    simpa [camOkEnv, exOk] using h
  · exact (capture_webcam_frame_release_and_none camNotOpenedEnv).2.2.1 rfl

/-- C4 counterexample: a non-blank question together with an unsupported
image type makes `answer_question` raise out of `prepare_image` without ever
invoking the VQA generation routine — the generate log stays empty — so "for
every question that is non-empty after trimming, the model is invoked" fails. -/
theorem answer_question_not_invoked_cex :
    pyBlank "What is this?" = false ∧
    (answer_question sampleInfEnv initState (ImageInput.other "<class 'int'>")
        "What is this?" 50).1 =
      .error (.valueError "Unsupported image type: <class 'int'>") ∧
    (answer_question sampleInfEnv initState (ImageInput.other "<class 'int'>")
        "What is this?" 50).2.vqaGenLog = [] := by
  exact ⟨by decide, rfl, rfl⟩

/-- C4 amended: a blank question returns the sentinel with the state (hence
the VQA handle and its invocation log) untouched; a non-blank question always
loads the VQA handle, and the model is invoked with the given cap whenever
image normalization and generation succeed. -/
theorem answer_question_guard_and_invoke (env : InfEnv) (st : ModelsState)
    (image : ImageInput) (q : String) (n : Nat) :
    (pyBlank q = true →
       answer_question env st image q n = (.ok "Please ask a question about the image.", st)) ∧
    (pyBlank q = false →
       ((answer_question env st image q n).2.vqa_model.isSome = true ∧
        ∀ pil seq rest, prepare_image env image = .ok pil →
          env.vqaGenerate { image := pil, text := some q } n = seq :: rest →
          (answer_question env st image q n).2.vqaGenLog =
              (load_vqa_model env st).2.vqaGenLog ++ [n] ∧
          (answer_question env st image q n).1 = .ok (decodeTokens true seq))) := by
  constructor
  · intro hb
    simp [answer_question, hb]
  · intro hb
    constructor
    · have hsome : ((load_vqa_model env st).2).vqa_model.isSome = true := by
        cases h : st.vqa_model <;> simp [load_vqa_model, h]
      rcases hp : prepare_image env image with e | pil
      · simpa [answer_question, hb, hp] using hsome
      · rcases ho : (env.vqaGenerate { image := pil, text := some q } n).head? with _ | seq <;>
          simpa [answer_question, hb, hp, ho] using hsome
    · intro pil seq rest hp hg
      constructor <;> simp [answer_question, hb, hp, hg]

/-- Witness for the amended C4: a blank question is a pure sentinel, and a
non-blank question on a buffer image is answered with the VQA model invoked
once with cap 50. -/
theorem answer_question_guard_and_invoke_witness :
    answer_question sampleInfEnv initState (ImageInput.ndarray { width := 3, height := 3 })
        "   " 50 = (.ok "Please ask a question about the image.", initState) ∧
    (answer_question sampleInfEnv initState (ImageInput.ndarray { width := 3, height := 3 })
        "Is it a cat?" 50).1 = .ok "yes" ∧
    (answer_question sampleInfEnv initState (ImageInput.ndarray { width := 3, height := 3 })
        "Is it a cat?" 50).2.vqaGenLog = [50] := by
  have h1 := (answer_question_guard_and_invoke sampleInfEnv initState
    (ImageInput.ndarray { width := 3, height := 3 }) "   " 50).1 (by decide)
  have h2 := (answer_question_guard_and_invoke sampleInfEnv initState
    (ImageInput.ndarray { width := 3, height := 3 }) "Is it a cat?" 50).2 (by decide)
  obtain ⟨hlog, hres⟩ := h2.2 { width := 3, height := 3, mode := "RGB" }
    [{ text := "yes", special := false }, { text := "[SEP]", special := true }] [] rfl rfl
  refine ⟨h1, ?_, ?_⟩
  · rw [hres]; rfl
  · rw [hlog]; rfl

/-- C8: each orchestration action converts any exception raised by its
pipeline into the displayed error string in the text slot (the actions are
total functions of the embedding, so no exception can escape to the host),
and a `none` frame from the capture source yields the capture-failed message. -/
theorem shell_catches_exceptions (env : AppEnv) (st st' : ModelsState)
    (img : ImageInput) (q : String) (tts : Bool) (e : PyError) :
    (caption_image env.inf st img DEFAULT_MAX_LENGTH = (.error e, st') →
       generate_caption_with_audio env st (some img) tts =
         (("❌ Error: " ++ e.msg, none), st')) ∧
    (pyBlank q = false →
       answer_question env.inf st img q DEFAULT_MAX_LENGTH = (.error e, st') →
       answer_with_audio env st (some img) q tts =
         (("❌ Error: " ++ e.msg, none), st')) ∧
    ((capture_webcam_frame env.cam).1 = none →
       capture_and_caption env st tts =
         ((none, "Failed to capture webcam frame. Make sure your webcam is connected.", none), st)) ∧
    (∀ frame, (capture_webcam_frame env.cam).1 = some frame →
       caption_image env.inf st (.ndarray frame) DEFAULT_MAX_LENGTH = (.error e, st') →
       capture_and_caption env st tts = ((none, "❌ Error: " ++ e.msg, none), st')) := by
  refine ⟨fun h => ?_, fun hb h => ?_, fun h => ?_, fun frame hf h => ?_⟩
  · simp [generate_caption_with_audio, h]
  · simp [answer_with_audio, hb, h]
  · simp [capture_and_caption, h]
  · simp [capture_and_caption, hf, h]

/-- Witness for C8: with the sample environment, a bad image type surfaces as
the displayed `ValueError` text, and the failing camera surfaces the
capture-failed message; neither call raises. -/
theorem shell_catches_exceptions_witness :
    generate_caption_with_audio sampleAppEnv initState
        (some (ImageInput.other "<class 'int'>")) true =
      (("❌ Error: Unsupported image type: <class 'int'>", none), loadedCaptionState) ∧
    capture_and_caption sampleAppEnv initState true =
      ((none, "Failed to capture webcam frame. Make sure your webcam is connected.", none),
       initState) := by
  constructor
  · exact (shell_catches_exceptions sampleAppEnv initState loadedCaptionState
      (ImageInput.other "<class 'int'>") "q" true
      (.valueError "Unsupported image type: <class 'int'>")).1 rfl
  · exact (shell_catches_exceptions sampleAppEnv initState loadedCaptionState
      (ImageInput.other "<class 'int'>") "q" true
      (.valueError "Unsupported image type: <class 'int'>")).2.2.1 rfl

/-- C9: `caption_image` invokes the captioning model's generation routine
with the hard cap `max_length` (default 50; the cap is recorded verbatim in
the generate log), decodes the first generated sequence with special tokens
stripped — stripping is insensitive to inserted control tokens — and returns
that string. -/
theorem caption_image_generates_and_decodes (env : InfEnv) (st : ModelsState)
    (image : ImageInput) (max_length : Nat) (pil : PILImage)
    (seq : List Token) (rest : List (List Token)) (s₁ s₂ : List Token) (t : Token) :
    DEFAULT_MAX_LENGTH = 50 ∧
    (t.special = true →
       decodeTokens true (s₁ ++ t :: s₂) = decodeTokens true (s₁ ++ s₂)) ∧
    (prepare_image env image = .ok pil →
      env.captionGenerate { image := pil, text := none } max_length = seq :: rest →
      caption_image env st image max_length =
        (.ok (decodeTokens true seq),
         { (load_caption_model env st).2 with
             captionGenLog := (load_caption_model env st).2.captionGenLog ++ [max_length] })) := by
  refine ⟨rfl, fun ht => ?_, fun hp hg => ?_⟩
  · simp [decodeTokens, List.filter_append, ht]
  · simp [caption_image, hp, hg]

/-- Witness for C9: on the sample environment a buffer image is captioned to
the decoded non-special text, with one generate invocation logged at cap 50. -/
theorem caption_image_generates_and_decodes_witness :
    (caption_image sampleInfEnv initState (ImageInput.ndarray { width := 3, height := 3 })
        DEFAULT_MAX_LENGTH).1 = .ok "a cat" ∧
    (caption_image sampleInfEnv initState (ImageInput.ndarray { width := 3, height := 3 })
        DEFAULT_MAX_LENGTH).2.captionGenLog = [50] := by
  have h := (caption_image_generates_and_decodes sampleInfEnv initState
    (ImageInput.ndarray { width := 3, height := 3 }) DEFAULT_MAX_LENGTH
    { width := 3, height := 3, mode := "RGB" }
    [{ text := "a cat", special := false }, { text := "[SEP]", special := true }] []
    [] [] { text := "[SEP]", special := true }).2.2 rfl rfl
  constructor
  · rw [h]; rfl
  · rw [h]; rfl

/- ## Lemmas for the process-lifetime claims -/

theorem caption_image_caption_model (env : InfEnv) (st : ModelsState)
    (img : ImageInput) (n : Nat) :
    (caption_image env st img n).2.caption_model =
      some (st.caption_model.getD (st.nextHandleId + 1)) := by
  rw [caption_image_snd]
  rcases hp : prepare_image env img with e | pil <;>
    cases h : st.caption_model <;>
    simp [load_caption_model, h]

theorem caption_image_loadEvents (env : InfEnv) (st : ModelsState)
    (img : ImageInput) (n : Nat) :
    (caption_image env st img n).2.captionLoadEvents =
      st.captionLoadEvents + (if st.caption_model.isSome then 0 else 1) := by
  rw [caption_image_snd]
  rcases hp : prepare_image env img with e | pil <;>
    cases h : st.caption_model <;>
    simp [load_caption_model, h]

/-- A `caption_image` call from a state whose captioning handle is already
constructed keeps the handle and causes no further load event; iterated over
any remaining call sequence. -/
theorem runCaptions_loaded (env : InfEnv) (calls : List (ImageInput × Nat)) :
    ∀ (st : ModelsState) (m : Nat), st.caption_model = some m →
      (runCaptions env st calls).caption_model = some m ∧
      (runCaptions env st calls).captionLoadEvents = st.captionLoadEvents := by
  induction calls with
  | nil =>
    intro st m h
    simpa [runCaptions] using h
  | cons c rest ih =>
    intro st m h
    rcases c with ⟨img, n⟩
    have h1 := caption_image_caption_model env st img n
    have h2 := caption_image_loadEvents env st img n
    rw [h] at h1 h2
    simp only [Option.getD_some, Option.isSome_some, if_true] at h1 h2
    obtain ⟨ih1, ih2⟩ := ih (caption_image env st img n).2 m h1
    refine ⟨by simpa [runCaptions] using ih1, ?_⟩
    calc (runCaptions env st ((img, n) :: rest)).captionLoadEvents
        = (runCaptions env (caption_image env st img n).2 rest).captionLoadEvents := by
          simp [runCaptions]
      _ = (caption_image env st img n).2.captionLoadEvents := ih2
      _ = st.captionLoadEvents := by simp [h2]

/-- Any nonempty sequence of `caption_image` calls from interpreter start
constructs the captioning handle during the first call (identity `1`, load
event count `1`) and never again. -/
theorem runCaptions_from_init (env : InfEnv) (calls : List (ImageInput × Nat))
    (h : calls ≠ []) :
    (runCaptions env initState calls).caption_model = some 1 ∧
    (runCaptions env initState calls).captionLoadEvents = 1 := by
  rcases calls with _ | ⟨⟨img, n⟩, rest⟩
  · exact absurd rfl h
  · have h1 := caption_image_caption_model env initState img n
    have h2 := caption_image_loadEvents env initState img n
    have hst : (caption_image env initState img n).2.caption_model = some 1 := by
      simpa [initState] using h1
    have hev : (caption_image env initState img n).2.captionLoadEvents = 1 := by
      simpa [initState] using h2
    obtain ⟨i1, i2⟩ := runCaptions_loaded env rest (caption_image env initState img n).2 1 hst
    constructor
    · simpa [runCaptions] using i1
    · calc (runCaptions env initState ((img, n) :: rest)).captionLoadEvents
          = (runCaptions env (caption_image env initState img n).2 rest).captionLoadEvents := by
            simp [runCaptions]
        _ = 1 := by rw [i2, hev]

theorem runLoads_caption_isSome (env : InfEnv) : ∀ (ops : List LoadOp) (st : ModelsState),
    ((runLoads env st ops).caption_model.isSome = true ↔
       (st.caption_model.isSome = true ∨ LoadOp.loadCaption ∈ ops)) := by
  intro ops
  induction ops with
  | nil => intro st; simp [runLoads]
  | cons op rest ih =>
    intro st
    cases op
    · cases h : st.caption_model <;>
        simp [runLoads, load_caption_model, h, ih, List.mem_cons]
    · cases h : st.vqa_model <;>
        simp [runLoads, load_vqa_model, h, ih, List.mem_cons]

theorem runLoads_vqa_isSome (env : InfEnv) : ∀ (ops : List LoadOp) (st : ModelsState),
    ((runLoads env st ops).vqa_model.isSome = true ↔
       (st.vqa_model.isSome = true ∨ LoadOp.loadVqa ∈ ops)) := by
  intro ops
  induction ops with
  | nil => intro st; simp [runLoads]
  | cons op rest ih =>
    intro st
    cases op
    · cases h : st.caption_model <;>
        simp [runLoads, load_caption_model, h, ih, List.mem_cons]
    · cases h : st.vqa_model <;>
        simp [runLoads, load_vqa_model, h, ih, List.mem_cons]

theorem runLoads_getDeviceCalls (env : InfEnv) : ∀ (ops : List LoadOp) (st : ModelsState),
    (runLoads env st ops).getDeviceCalls = st.getDeviceCalls
      + (if st.caption_model = none ∧ LoadOp.loadCaption ∈ ops then 1 else 0)
      + (if st.vqa_model = none ∧ LoadOp.loadVqa ∈ ops then 1 else 0) := by
  intro ops
  induction ops with
  | nil => intro st; simp [runLoads]
  | cons op rest ih =>
    intro st
    cases op
    · cases h : st.caption_model
      · simp only [runLoads, ih, load_caption_model, h]
        simp [List.mem_cons]
      · simp only [runLoads, ih, load_caption_model, h]
        simp [List.mem_cons]
    · cases h : st.vqa_model
      · simp only [runLoads, ih, load_vqa_model, h]
        simp [List.mem_cons]
        split_ifs <;> simp_all
      · simp only [runLoads, ih, load_vqa_model, h]
        simp [List.mem_cons]

theorem runLoads_device (env : InfEnv) : ∀ (ops : List LoadOp) (st : ModelsState),
    (runLoads env st ops).device =
      if (st.caption_model = none ∧ LoadOp.loadCaption ∈ ops)
         ∨ (st.vqa_model = none ∧ LoadOp.loadVqa ∈ ops)
      then some (get_device env) else st.device := by
  intro ops
  induction ops with
  | nil => intro st; simp [runLoads]
  | cons op rest ih =>
    intro st
    cases op
    · cases h : st.caption_model
      · simp only [runLoads, ih, load_caption_model, h]
        simp [List.mem_cons]
      · simp only [runLoads, ih, load_caption_model, h]
        simp [List.mem_cons]
    · cases h : st.vqa_model
      · simp only [runLoads, ih, load_vqa_model, h]
        simp [List.mem_cons]
      · simp only [runLoads, ih, load_vqa_model, h]
        simp [List.mem_cons]

/-- C3: over every sequence of `caption_image` calls in one process, the
captioning handle is constructed during the first call only (the loading log
line fires `min n 1` times), every state reached after the first call holds
that same handle (identity `1`), and a call that finds the handle present
returns it unchanged without touching the state. -/
theorem caption_model_lazy_singleton (env : InfEnv)
    (calls : List (ImageInput × Nat)) (st : ModelsState) (m : Nat) :
    (runCaptions env initState calls).captionLoadEvents = min calls.length 1 ∧
    (∀ l₁ l₂, calls = l₁ ++ l₂ → l₁ ≠ [] →
       (runCaptions env initState l₁).caption_model = some 1 ∧
       (runCaptions env initState calls).caption_model = some 1) ∧
    (st.caption_model = some m →
       load_caption_model env st = ((some m, st.caption_processor, st.device), st)) := by
  refine ⟨?_, ?_, load_caption_model_of_some env st m⟩
  · rcases calls with _ | ⟨c, rest⟩
    · simp [runCaptions, initState]
    · have h := (runCaptions_from_init env (c :: rest) (by simp)).2
      rw [h]
      simp
  · intro l₁ l₂ hsplit hne
    refine ⟨(runCaptions_from_init env l₁ hne).1, ?_⟩
    refine (runCaptions_from_init env calls ?_).1
    subst hsplit
    rcases l₁ with _ | ⟨a, t⟩
    · exact absurd rfl hne
    · simp

/-- Witness for C3: two concrete calls load once; a one-call prefix and the
full run hold the same handle; a call on a preset state reuses its handle. -/
theorem caption_model_lazy_singleton_witness :
    (runCaptions sampleInfEnv initState [demoCall1, demoCall2]).captionLoadEvents = min 2 1 ∧
    (runCaptions sampleInfEnv initState [demoCall1]).caption_model = some 1 ∧
    (runCaptions sampleInfEnv initState [demoCall1, demoCall2]).caption_model = some 1 ∧
    load_caption_model sampleInfEnv presetState =
      ((some 7, presetState.caption_processor, presetState.device), presetState) := by
  obtain ⟨h1, h2, h3⟩ :=
    caption_model_lazy_singleton sampleInfEnv [demoCall1, demoCall2] presetState 7
  obtain ⟨ha, hb⟩ := h2 [demoCall1] [demoCall2] rfl (by simp)
  exact ⟨by simpa using h1, ha, hb, h3 rfl⟩

/-- C2 counterexample: loading the captioning model and then the VQA model —
the normal life of a process that serves both actions — executes the device
resolution step twice, not once: the resolution is re-executed when the
second handle is constructed. -/
theorem get_device_reexecuted_cex :
    (runLoads sampleInfEnv initState [LoadOp.loadCaption, LoadOp.loadVqa]).getDeviceCalls = 2 :=
  rfl

/-- C2 amended: device resolution follows the priority order CUDA, then MPS,
then CPU, but is executed once per handle kind, at that handle's first
construction — so up to twice per process, re-executed when the second
handle is constructed.  Resolution is deterministic in the environment, so
every execution stores the same single value in the shared `device` global,
and both handles come out bound to that value. -/
theorem device_resolution_per_handle (env : InfEnv) (ops : List LoadOp) (st : ModelsState) :
    (env.cudaAvailable = true → get_device env = Device.cuda) ∧
    (env.cudaAvailable = false → env.mpsAvailable = true → get_device env = Device.mps) ∧
    (env.cudaAvailable = false → env.mpsAvailable = false → get_device env = Device.cpu) ∧
    ((runLoads env initState ops).getDeviceCalls =
       (if LoadOp.loadCaption ∈ ops then 1 else 0)
         + (if LoadOp.loadVqa ∈ ops then 1 else 0)) ∧
    (ops ≠ [] → (runLoads env initState ops).device = some (get_device env)) ∧
    (st.caption_model = none →
       ((load_caption_model env st).1).2.2 = some (get_device env)) ∧
    (st.vqa_model = none →
       ((load_vqa_model env st).1).2.2 = some (get_device env)) := by
  refine ⟨?_, ?_, ?_, ?_, ?_, ?_, ?_⟩
  · intro h; simp [get_device, h]
  · intro h1 h2; simp [get_device, h1, h2]
  · intro h1 h2; simp [get_device, h1, h2]
  · rw [runLoads_getDeviceCalls]
    simp [initState]
  · intro hne
    rw [runLoads_device]
    rcases ops with _ | ⟨op, rest⟩
    · exact absurd rfl hne
    · cases op <;> simp [initState, List.mem_cons]
  · intro h; simp [load_caption_model, h]
  · intro h; simp [load_vqa_model, h]

/-- Witness for the amended C2: on the CPU-only sample environment, loading
both models resolves to CPU, stores it in the shared global, and hands the
same value to the captioning load. -/
theorem device_resolution_per_handle_witness :
    get_device sampleInfEnv = Device.cpu ∧
    (runLoads sampleInfEnv initState [LoadOp.loadCaption, LoadOp.loadVqa]).device =
      some (get_device sampleInfEnv) ∧
    ((load_caption_model sampleInfEnv initState).1).2.2 = some (get_device sampleInfEnv) := by
  have h := device_resolution_per_handle sampleInfEnv [LoadOp.loadCaption, LoadOp.loadVqa] initState
  exact ⟨h.2.2.1 rfl rfl, h.2.2.2.2.1 (by simp), h.2.2.2.2.2.1 rfl⟩

end Vision2Lang
